import Mathlib

/-!
Shallow embedding of src/web/chat_optimize.js (ComfyUI_LLM_Embeder front-end
orchestration layer): graph data model, widget writes, output propagation,
LLM configuration resolution, the chat dispatch action and the history modal.
Each definition mirrors the corresponding JavaScript function; widget change
callbacks are modelled as invocation counters (the callbacks themselves are
host-provided and opaque).
-/

namespace ChatOptimize

/-- JavaScript values stored in widgets: strings, booleans, integers and a
null value standing for both null and undefined. -/
inductive JVal where
  | str (s : String)
  | num (n : Int)
  | bool (b : Bool)
  | null
  deriving DecidableEq

/-- JavaScript truthiness of a widget value. -/
def truthy : JVal → Bool
  | .str s => !(s == "")
  | .num n => !(n == 0)
  | .bool b => b
  | .null => false

/-- The nullish-coalescing default used in setWidgetValue: value or empty string. -/
def jvDefault : JVal → JVal
  | .null => .str ""
  | v => v

/-- JavaScript strict equality of a widget value with a string literal. -/
def jvEqStr (v : JVal) (s : String) : Bool :=
  match v with
  | .str t => t == s
  | _ => false

/-- String conversion as performed by a JavaScript template literal. -/
def jstr : JVal → String
  | .str s => s
  | .num n => toString n
  | .bool b => if b then "true" else "false"
  | .null => "null"

/-- A node widget: unique name within its node, current value, whether an
onChange callback is attached, and how many times it has been invoked. -/
structure Widget where
  name : String
  value : JVal
  hasOnChange : Bool
  onChangeCalls : Nat
  deriving DecidableEq

/-- An input slot: its name, an optional link id (null when unconnected) and
the name of the widget it is bound to, when the input carries a widget binding. -/
structure InputSlot where
  name : String
  link : Option Nat
  widgetName : Option String
  deriving DecidableEq

/-- An output slot: its list of attached link ids, when present. -/
structure OutputSlot where
  links : Option (List Nat)
  deriving DecidableEq

/-- A directed link of the graph, as stored in the links table. -/
structure Link where
  origin_id : Nat
  origin_slot : Nat
  target_id : Nat
  target_slot : Nat
  deriving DecidableEq

/-- A graph node: stable id, optional widget list, optional input and output
slot lists (the JavaScript fields may each be undefined). -/
structure Node where
  id : Nat
  widgets : Option (List Widget)
  inputs : Option (List InputSlot)
  outputs : Option (List OutputSlot)
  deriving DecidableEq

/-- The host graph: the links table (lookup by id) and the node list
(lookup by id via getNodeById). -/
structure Graph where
  links : List (Nat × Link)
  nodes : List Node
  deriving DecidableEq

/-- app.graph.links[linkId]. -/
def lookupLink (g : Graph) (linkId : Nat) : Option Link :=
  (g.links.find? (fun p => p.1 == linkId)).map (·.2)

/-- app.graph.getNodeById. -/
def getNodeById (g : Graph) (i : Nat) : Option Node :=
  g.nodes.find? (fun n => n.id == i)

/-- node.widgets?.find(w => w.name === nm). -/
def nodeWidgetFind (n : Node) (nm : String) : Option Widget :=
  (n.widgets.getD []).find? (fun w => w.name == nm)

/-- Find a widget by node id and widget name through the graph. -/
def widgetFind (g : Graph) (i : Nat) (nm : String) : Option Widget :=
  (getNodeById g i).bind (fun n => nodeWidgetFind n nm)

/-- Current value of the named widget of the named node, when both resolve. -/
def widgetValue (g : Graph) (i : Nat) (nm : String) : Option JVal :=
  (widgetFind g i nm).map (·.value)

/-- Number of onChange invocations recorded on the named widget. -/
def widgetCalls (g : Graph) (i : Nat) (nm : String) : Option Nat :=
  (widgetFind g i nm).map (·.onChangeCalls)

/-- Whether the named widget carries an onChange callback. -/
def widgetHasCb (g : Graph) (i : Nat) (nm : String) : Option Bool :=
  (widgetFind g i nm).map (·.hasOnChange)

/-- Replace the first element satisfying the predicate by its image under f;
models in-place mutation of the object that a JavaScript find returned. -/
def updateFirst (p : α → Bool) (f : α → α) : List α → List α
  | [] => []
  | x :: xs => if p x then f x :: xs else x :: updateFirst p f xs

/-- w.value = v on the first widget of the given name (no callback invoked). -/
def wWriteRaw (ws : List Widget) (nm : String) (v : JVal) : List Widget :=
  updateFirst (fun w => w.name == nm) (fun w => { w with value := v }) ws

/-- Invocation count after the conditional callback call if (w.onChange) w.onChange(v). -/
def bumpCalls (w : Widget) : Nat :=
  w.onChangeCalls + (if w.hasOnChange then 1 else 0)

/-- w.value = v; if (w.onChange) w.onChange(v) on the first widget of the name. -/
def wWriteCb (ws : List Widget) (nm : String) (v : JVal) : List Widget :=
  updateFirst (fun w => w.name == nm)
    (fun w => { w with value := v, onChangeCalls := bumpCalls w }) ws

/-- Direct assignment to a captured widget reference of the node, as done by
the dispatcher for the status widget and the two cache widgets. -/
def nodeRawWrite (n : Node) (nm : String) (v : JVal) : Node :=
  { n with widgets := n.widgets.map (fun ws => wWriteRaw ws nm v) }

/-- Widget write with callback invocation, as done by propagateOutput. -/
def nodeWriteCb (n : Node) (nm : String) (v : JVal) : Node :=
  { n with widgets := n.widgets.map (fun ws => wWriteCb ws nm v) }

/-- setWidgetValue from the source: bail out when the node has no widgets or
no widget of that name; otherwise write the nullish-defaulted value and
invoke the callback. -/
def setWidgetValue (n : Node) (nm : String) (v : JVal) : Node :=
  match n.widgets with
  | none => n
  | some ws =>
    match ws.find? (fun w => w.name == nm) with
    | none => n
    | some _ => { n with widgets := some (wWriteCb ws nm (jvDefault v)) }

/-- Mutate the node that getNodeById would return for this id. -/
def updateNodeById (g : Graph) (i : Nat) (f : Node → Node) : Graph :=
  { g with nodes := updateFirst (fun n => n.id == i) f g.nodes }

/-- One step of propagateOutput's forEach: resolve the link, the target node,
the target input's widget binding and the named widget; write the value and
invoke the callback when everything resolves, otherwise skip silently. -/
def propagateOne (g : Graph) (linkId : Nat) (v : JVal) : Graph :=
  match lookupLink g linkId with
  | none => g
  | some link =>
    match getNodeById g link.target_id with
    | none => g
    | some t =>
      match (t.inputs.getD [])[link.target_slot]? with
      | none => g
      | some inp =>
        match inp.widgetName with
        | none => g
        | some wn =>
          if (t.widgets.getD []).any (fun w => w.name == wn) then
            updateNodeById g link.target_id (fun n => nodeWriteCb n wn v)
          else g

/-- The target-node part of the consumer resolution: the input slot's widget
binding and the named widget must exist on the target node. -/
def consumerOfNode (tid : Nat) (slot : Nat) (t : Node) : Option (Nat × String) :=
  match (t.inputs.getD [])[slot]? with
  | none => none
  | some inp =>
    match inp.widgetName with
    | none => none
    | some wn =>
      if (t.widgets.getD []).any (fun w => w.name == wn) then some (tid, wn)
      else none

/-- The resolution chain of propagateOne, without the write: the target node
id and widget name of a link's consumer when it is fully resolvable. -/
def resolveConsumer (g : Graph) (linkId : Nat) : Option (Nat × String) :=
  match lookupLink g linkId with
  | none => none
  | some link =>
    match getNodeById g link.target_id with
    | none => none
    | some t => consumerOfNode link.target_id link.target_slot t

/-- The outputs part of propagateOutput's guards: the link ids of the node's
given output slot, empty on any missing field. -/
def slotLinksOfNode (n : Node) (slot : Nat) : List Nat :=
  match n.outputs with
  | none => []
  | some outs =>
    match outs[slot]? with
    | none => []
    | some o => o.links.getD []

/-- The link ids attached to the node's given output slot; empty on any of the
early-return guards of propagateOutput. -/
def slotLinks (g : Graph) (i : Nat) (slot : Nat) : List Nat :=
  match getNodeById g i with
  | none => []
  | some n => slotLinksOfNode n slot

/-- propagateOutput from the source: iterate the slot's links, writing the
value into every resolvable consumer widget. -/
def propagateOutput (g : Graph) (i : Nat) (slot : Nat) (v : JVal) : Graph :=
  (slotLinks g i slot).foldl (fun acc linkId => propagateOne acc linkId v) g

/-- The resolvable consumers of a node's output slot. -/
def slotConsumers (g : Graph) (i : Nat) (slot : Nat) : List (Nat × String) :=
  (slotLinks g i slot).filterMap (resolveConsumer g)

/-- The origin-node resolution chain of getLLMConfig: the llm_config input,
its link, the link record and the origin node; none at any failure. -/
def configOrigin (g : Graph) (n : Node) : Option Node :=
  match n.inputs with
  | none => none
  | some ins =>
    match ins.find? (fun i => i.name == "llm_config") with
    | none => none
    | some inp =>
      match inp.link with
      | none => none
      | some linkId =>
        match lookupLink g linkId with
        | none => none
        | some link => getNodeById g link.origin_id

/-- The field names getLLMConfig copies from the origin node, in source order. -/
def llmFields : List String :=
  ["provider", "base_url", "model_name", "temperature", "top_p",
   "max_new_tokens", "hf_token"]

/-- The per-field copying loop of getLLMConfig: for each recognized field name
present as a widget on the origin node, record its value under the same key. -/
def extractLLMConfig (src : Node) : List (String × JVal) :=
  llmFields.foldl
    (fun acc nm =>
      match (src.widgets.getD []).find? (fun w => w.name == nm) with
      | some w => acc ++ [(nm, w.value)]
      | none => acc) []

/-- getLLMConfig from the source: resolve the origin, then extract the record;
null when the chain does not resolve. -/
def getLLMConfig (g : Graph) (n : Node) : Option (List (String × JVal)) :=
  (configOrigin g n).map extractLLMConfig

/-- A payload value: either a widget value or the attached llm_config object. -/
inductive PVal where
  | v (x : JVal)
  | cfg (c : List (String × JVal))
  deriving DecidableEq

/-- JavaScript object assignment o[k] = v: replace the first binding of the
key, or append a new one. -/
def objSet (o : List (String × PVal)) (k : String) (x : PVal) : List (String × PVal) :=
  if o.any (fun p => p.1 == k) then
    updateFirst (fun p => p.1 == k) (fun _ => (k, x)) o
  else o ++ [(k, x)]

/-- Lookup of an object key. -/
def lookupKey (o : List (String × PVal)) (k : String) : Option PVal :=
  (o.find? (fun p => p.1 == k)).map (·.2)

/-- The selected action: the action widget's value, or the string send when
the widget is absent. -/
def readAction (n : Node) : JVal :=
  match nodeWidgetFind n "action" with
  | some w => w.value
  | none => .str "send"

/-- The dispatch payload of sendAction: every widget value except the fixed
exclusion set, then the action, then the resolved llm_config when present. -/
def buildPayload (g : Graph) (n : Node) : List (String × PVal) :=
  let action := readAction n
  let excludeWidgets := ["status", "history_preview", "assistant_response_preview",
                         "auto_clear_input"]
  let p := (n.widgets.getD []).foldl
    (fun acc w =>
      if excludeWidgets.contains w.name then acc else objSet acc w.name (.v w.value))
    []
  let p := objSet p "action" (.v action)
  match getLLMConfig g n with
  | some c => objSet p "llm_config" (.cfg c)
  | none => p

/-- The auto_clear_input toggle read: node.widgets?.find(...)?.value, then
JavaScript truthiness. -/
def autoClearOf (g : Graph) (i : Nat) : Bool :=
  match widgetValue g i "auto_clear_input" with
  | some v => truthy v
  | none => false

/-- The transient working status text. -/
def statusWorking (a : JVal) : JVal :=
  .str ("working: " ++ jstr a ++ "...")

/-- The structured backend response: both fields optional, defaulted to the
empty string by the dispatcher. -/
structure ChatResp where
  assistant_response : Option String
  readable_history : Option String
  deriving DecidableEq

/-- The success path of sendAction, after postJSON resolves: store the two
response strings into the cache widgets (raw writes), propagate them to
output slots 0 and 1, clear user_message when the action is send and the
auto-clear toggle is enabled, and set the status to done. -/
def sendSuccess (g : Graph) (i : Nat) (resp : ChatResp) : Graph :=
  match getNodeById g i with
  | none => g
  | some n0 =>
    let action := readAction n0
    let g1 := updateNodeById g i (fun n => nodeRawWrite n "status" (statusWorking action))
    let r : JVal := .str (resp.assistant_response.getD "")
    let h : JVal := .str (resp.readable_history.getD "")
    let g2 := updateNodeById g1 i (fun n => nodeRawWrite n "assistant_response_preview" r)
    let g3 := updateNodeById g2 i (fun n => nodeRawWrite n "history_preview" h)
    let g4 := propagateOutput g3 i 0 r
    let g5 := propagateOutput g4 i 1 h
    let g6 := if jvEqStr action "send" && autoClearOf g5 i then
                updateNodeById g5 i (fun n => setWidgetValue n "user_message" (.str ""))
              else g5
    updateNodeById g6 i (fun n => nodeRawWrite n "status" (.str "done"))

/-- The failure path of sendAction: after the working status write, postJSON
rejects and the catch block writes the error status; nothing else changes. -/
def sendFailure (g : Graph) (i : Nat) (msg : String) : Graph :=
  match getNodeById g i with
  | none => g
  | some n0 =>
    let action := readAction n0
    let g1 := updateNodeById g i (fun n => nodeRawWrite n "status" (statusWorking action))
    updateNodeById g1 i (fun n => nodeRawWrite n "status" (.str ("error: " ++ msg)))

/-- The history modal surface: displayed text, visibility, and whether a
scroll-to-bottom is scheduled for the next tick. -/
structure Modal where
  content : String
  visible : Bool
  scrollScheduled : Bool
  deriving DecidableEq

/-- Process-wide modal state: the lazily created singleton and how many times
the overlay surface has been created. -/
structure UIState where
  historyModal : Option Modal
  createdCount : Nat
  deriving DecidableEq

/-- ensureHistoryModal: return the existing singleton, or create the hidden
overlay and content surface on first use. -/
def ensureHistoryModal (s : UIState) : UIState :=
  match s.historyModal with
  | some _ => s
  | none =>
    { historyModal := some { content := "", visible := false, scrollScheduled := false },
      createdCount := s.createdCount + 1 }

/-- openHistoryModal: ensure the singleton, replace the content with the text,
show the overlay and schedule scrolling to the bottom. -/
def openHistoryModal (s : UIState) (text : String) : UIState :=
  let s := ensureHistoryModal s
  { s with historyModal :=
      s.historyModal.map (fun _ =>
        { content := text, visible := true, scrollScheduled := true }) }

/-- closeHistoryModal: hide the overlay when it exists. -/
def closeHistoryModal (s : UIState) : UIState :=
  match s.historyModal with
  | none => s
  | some m => { s with historyModal := some { m with visible := false } }

/-- isHistoryModalOpen: the singleton exists and its overlay is displayed. -/
def isHistoryModalOpen (s : UIState) : Bool :=
  match s.historyModal with
  | none => false
  | some m => m.visible

/-- The history widget's wrapped onChange of the viewer node: invoke the
original callback (opaque), mirror the value into the backing input element
when present, and re-open the modal with the new text when it is open. -/
def historyOnChange (s : UIState) (inputEl : Option String) (v : String) :
    UIState × Option String :=
  let el := match inputEl with
            | some x => if x == v then some x else some v
            | none => none
  let s := if isHistoryModalOpen s then openHistoryModal s v else s
  (s, el)

/-- Example viewer-modal state: the modal is open showing a three-line transcript. -/
def uiOpenABC : UIState :=
  { historyModal := some { content := "A\nB\nC", visible := true, scrollScheduled := false },
    createdCount := 1 }

/-- Example graph for propagation: node 10 fans out on slot 0 through a link
whose target widget is missing, a dangling link id, a fully resolvable link,
and a link to a node without input slots. -/
def gC6 : Graph :=
  { links := [(1, { origin_id := 10, origin_slot := 0, target_id := 2, target_slot := 0 }),
              (2, { origin_id := 10, origin_slot := 0, target_id := 3, target_slot := 0 }),
              (3, { origin_id := 10, origin_slot := 0, target_id := 4, target_slot := 0 })],
    nodes := [{ id := 10, widgets := some [], inputs := none,
                outputs := some [{ links := some [1, 99, 2, 3] }] },
              { id := 2, widgets := some [],
                inputs := some [{ name := "in", link := some 1, widgetName := some "text" }],
                outputs := none },
              { id := 3,
                widgets := some [{ name := "text", value := .str "old", hasOnChange := true,
                                   onChangeCalls := 0 }],
                inputs := some [{ name := "in", link := some 2, widgetName := some "text" }],
                outputs := none },
              { id := 4, widgets := some [], inputs := some [], outputs := none }] }

/-- Example graph with a link from node 1's output slot 0 back to node 1's own
input, whose widget binding names an existing widget of node 1. -/
def gC7 : Graph :=
  { links := [(5, { origin_id := 1, origin_slot := 0, target_id := 1, target_slot := 0 })],
    nodes := [{ id := 1,
                widgets := some [{ name := "w", value := .str "old", hasOnChange := false,
                                   onChangeCalls := 0 }],
                inputs := some [{ name := "in", link := some 5, widgetName := some "w" }],
                outputs := some [{ links := some [5] }] }] }

/-- Example graph where node 1's output slot 0 links only to the distinct node 2. -/
def gC7b : Graph :=
  { links := [(6, { origin_id := 1, origin_slot := 0, target_id := 2, target_slot := 0 })],
    nodes := [{ id := 1, widgets := some [], inputs := none,
                outputs := some [{ links := some [6] }] },
              { id := 2,
                widgets := some [{ name := "t", value := .str "", hasOnChange := false,
                                   onChangeCalls := 0 }],
                inputs := some [{ name := "in", link := some 6, widgetName := some "t" }],
                outputs := none }] }

/-- Example chat node for the dispatch claims: status, user_message and the
two cache widgets, no connections. -/
def nC2 : Node :=
  { id := 1,
    widgets := some
      [{ name := "status", value := .str "idle", hasOnChange := false, onChangeCalls := 0 },
       { name := "user_message", value := .str "hi", hasOnChange := false, onChangeCalls := 0 },
       { name := "assistant_response_preview", value := .str "prev", hasOnChange := false,
         onChangeCalls := 0 },
       { name := "history_preview", value := .str "hist", hasOnChange := false,
         onChangeCalls := 0 }],
    inputs := none, outputs := none }

/-- Example graph holding only the chat node nC2. -/
def gC2 : Graph := { links := [], nodes := [nC2] }

/-- Example chat node for the success-path claim: full widget set, action set
to send with the auto-clear toggle on, slot 0 linked to node 2 and slot 1 to
node 3. -/
def nC1 : Node :=
  { id := 1,
    widgets := some
      [{ name := "status", value := .str "idle", hasOnChange := false, onChangeCalls := 0 },
       { name := "user_message", value := .str "hi", hasOnChange := false, onChangeCalls := 0 },
       { name := "assistant_response_preview", value := .str "", hasOnChange := false,
         onChangeCalls := 0 },
       { name := "history_preview", value := .str "", hasOnChange := false, onChangeCalls := 0 },
       { name := "action", value := .str "send", hasOnChange := false, onChangeCalls := 0 },
       { name := "auto_clear_input", value := .bool true, hasOnChange := false,
         onChangeCalls := 0 }],
    inputs := none,
    outputs := some [{ links := some [1] }, { links := some [2] }] }

/-- Example graph for the success-path claim: nC1 plus two downstream consumers. -/
def gC1 : Graph :=
  { links := [(1, { origin_id := 1, origin_slot := 0, target_id := 2, target_slot := 0 }),
              (2, { origin_id := 1, origin_slot := 1, target_id := 3, target_slot := 0 })],
    nodes := [nC1,
      { id := 2,
        widgets := some [{ name := "text0", value := .str "", hasOnChange := true,
                           onChangeCalls := 0 }],
        inputs := some [{ name := "t0", link := some 1, widgetName := some "text0" }],
        outputs := none },
      { id := 3,
        widgets := some [{ name := "text1", value := .str "", hasOnChange := true,
                           onChangeCalls := 0 }],
        inputs := some [{ name := "t1", link := some 2, widgetName := some "text1" }],
        outputs := none }] }

/-- Example backend response for the success-path claim. -/
def respC1 : ChatResp :=
  { assistant_response := some "reply", readable_history := some "trace" }

/-- Example chat node whose status and cache widgets all carry callbacks. -/
def nC4 : Node :=
  { id := 1,
    widgets := some
      [{ name := "status", value := .str "idle", hasOnChange := true, onChangeCalls := 0 },
       { name := "assistant_response_preview", value := .str "", hasOnChange := true,
         onChangeCalls := 0 },
       { name := "history_preview", value := .str "", hasOnChange := true, onChangeCalls := 0 },
       { name := "action", value := .str "send", hasOnChange := false, onChangeCalls := 0 }],
    inputs := none, outputs := none }

/-- Example graph holding only nC4. -/
def gC4 : Graph := { links := [], nodes := [nC4] }

/-- Example backend response for the callback-discipline counterexample. -/
def respC4 : ChatResp :=
  { assistant_response := some "hi", readable_history := some "trace" }

/-- Example widget carrying a change callback that has fired three times. -/
def wC4 : Widget :=
  { name := "user_message", value := .str "old", hasOnChange := true, onChangeCalls := 3 }

/-- Example node holding only wC4. -/
def nC4w : Node := { id := 9, widgets := some [wC4], inputs := none, outputs := none }

/-- Example configuration-source node exposing provider and api_key widgets. -/
def srcC3 : Node :=
  { id := 2,
    widgets := some
      [{ name := "provider", value := .str "openai", hasOnChange := false, onChangeCalls := 0 },
       { name := "api_key", value := .str "sk-test", hasOnChange := false, onChangeCalls := 0 }],
    inputs := none, outputs := none }

/-- Example chat node whose llm_config input links to srcC3. -/
def nC3 : Node :=
  { id := 1, widgets := some [],
    inputs := some [{ name := "llm_config", link := some 7, widgetName := none }],
    outputs := none }

/-- Example graph wiring nC3's configuration input to srcC3. -/
def gC3 : Graph :=
  { links := [(7, { origin_id := 2, origin_slot := 0, target_id := 1, target_slot := 0 })],
    nodes := [nC3, srcC3] }

/-- Example chat node with no llm_config input slot at all. -/
def nC5 : Node :=
  { id := 4,
    widgets := some [{ name := "user_message", value := .str "", hasOnChange := false,
                       onChangeCalls := 0 }],
    inputs := some [], outputs := none }

/-- Example graph holding only the unconnected node nC5. -/
def gC5 : Graph := { links := [], nodes := [nC5] }

/-- Example configuration-source node exposing none of the recognized fields. -/
def srcC10 : Node :=
  { id := 2,
    widgets := some [{ name := "note", value := .str "x", hasOnChange := false,
                       onChangeCalls := 0 }],
    inputs := none, outputs := none }

/-- Example chat node whose llm_config input links to srcC10. -/
def nC10 : Node :=
  { id := 1, widgets := some [],
    inputs := some [{ name := "llm_config", link := some 3, widgetName := none }],
    outputs := none }

/-- Example graph wiring nC10's configuration input to srcC10. -/
def gC10 : Graph :=
  { links := [(3, { origin_id := 2, origin_slot := 0, target_id := 1, target_slot := 0 })],
    nodes := [nC10, srcC10] }

/-- A node transformer preserves graph shape when it keeps the node id, the
input and output slots and the widget names; every widget write of this layer
does. Shape determines link and consumer resolution. -/
def ShapePreserving (f : Node → Node) : Prop :=
  ∀ n, (f n).id = n.id ∧ (f n).inputs = n.inputs ∧ (f n).outputs = n.outputs ∧
       (f n).widgets.map (List.map Widget.name) = n.widgets.map (List.map Widget.name)

/-! Generic lemmas about updateFirst, the model of in-place mutation of the
object a JavaScript find returned. -/

theorem length_updateFirst (p : α → Bool) (f : α → α) (l : List α) :
    (updateFirst p f l).length = l.length := by
  induction l with
  | nil => rfl
  | cons x xs ih =>
    by_cases hx : p x = true
    · simp [updateFirst, hx]
    · simp [updateFirst, hx, ih]

theorem updateFirst_no_match (p : α → Bool) (f : α → α) (l : List α)
    (h : l.find? p = none) : updateFirst p f l = l := by
  induction l with
  | nil => rfl
  | cons x xs ih =>
    rw [List.find?_cons] at h
    by_cases hx : p x = true
    · simp [hx] at h
    · simp [updateFirst, hx, ih (by simpa [hx] using h)]

theorem find?_updateFirst_cases (p q : α → Bool) (f : α → α) (l : List α)
    (hq : ∀ b, q (f b) = q b) :
    (updateFirst p f l).find? q = l.find? q ∨
    ∃ a, l.find? q = some a ∧ p a = true ∧ (updateFirst p f l).find? q = some (f a) := by
  induction l with
  | nil => exact Or.inl rfl
  | cons x xs ih =>
    by_cases hp : p x = true
    · by_cases hqx : q x = true
      · refine Or.inr ⟨x, ?_, hp, ?_⟩
        · simp [List.find?_cons, hqx]
        · simp [updateFirst, hp, List.find?_cons, hq x, hqx]
      · refine Or.inl ?_
        simp [updateFirst, hp, List.find?_cons, hq x, hqx]
    · by_cases hqx : q x = true
      · refine Or.inl ?_
        simp [updateFirst, hp, List.find?_cons, hqx]
      · rcases ih with h | ⟨a, ha, hpa, ha'⟩
        · refine Or.inl ?_
          simp [updateFirst, hp, List.find?_cons, hqx, h]
        · refine Or.inr ⟨a, ?_, hpa, ?_⟩
          · simp [List.find?_cons, hqx, ha]
          · simp [updateFirst, hp, List.find?_cons, hqx, ha']

theorem find?_updateFirst_self (p : α → Bool) (f : α → α) (l : List α) (a : α)
    (h : l.find? p = some a) (hf : ∀ b, p b = true → p (f b) = true) :
    (updateFirst p f l).find? p = some (f a) := by
  induction l with
  | nil => simp at h
  | cons x xs ih =>
    by_cases hp : p x = true
    · rw [List.find?_cons_of_pos _ hp] at h
      cases h
      have hstep : updateFirst p f (a :: xs) = f a :: xs := by
        simp [updateFirst, hp]
      rw [hstep]
      exact List.find?_cons_of_pos _ (hf a hp)
    · rw [List.find?_cons_of_neg _ (by simpa using hp)] at h
      have hstep : updateFirst p f (x :: xs) = x :: updateFirst p f xs := by
        simp [updateFirst, hp]
      rw [hstep, List.find?_cons_of_neg _ (by simpa using hp)]
      exact ih h

theorem find?_updateFirst_of_ne (p q : α → Bool) (f : α → α) (l : List α)
    (hq : ∀ b, q (f b) = q b) (hpq : ∀ b, p b = true → q b = false) :
    (updateFirst p f l).find? q = l.find? q := by
  rcases find?_updateFirst_cases p q f l hq with h | ⟨a, ha, hpa, ha'⟩
  · exact h
  · exact absurd (List.find?_some ha) (by simp [hpq a hpa])

theorem map_updateFirst (p : α → Bool) (f : α → α) (m : α → β) (l : List α)
    (h : ∀ b, m (f b) = m b) : (updateFirst p f l).map m = l.map m := by
  induction l with
  | nil => rfl
  | cons x xs ih =>
    by_cases hx : p x = true
    · simp [updateFirst, hx, h x]
    · simp [updateFirst, hx, ih]

theorem forall₂_updateFirst (p : α → Bool) (f : α → α) (l : List α) :
    List.Forall₂ (fun a b => b = a ∨ (p a = true ∧ b = f a)) l (updateFirst p f l) := by
  induction l with
  | nil => exact List.Forall₂.nil
  | cons x xs ih =>
    by_cases hx : p x = true
    · simp only [updateFirst, hx, if_true, ite_true]
      exact List.Forall₂.cons (Or.inr ⟨hx, rfl⟩)
        (List.forall₂_same.mpr (fun a _ => Or.inl rfl))
    · simp only [updateFirst, hx, if_false, ite_false]
      exact List.Forall₂.cons (Or.inl rfl) ih

theorem forall₂_trans_comp {P Q R : α → α → Prop} {l m k : List α}
    (h1 : List.Forall₂ P l m) (h2 : List.Forall₂ Q m k)
    (h : ∀ a b c, P a b → Q b c → R a c) : List.Forall₂ R l k := by
  induction h1 generalizing k with
  | nil => cases h2; exact List.Forall₂.nil
  | cons hab h1' ih =>
    cases h2 with
    | cons hbc h2' => exact List.Forall₂.cons (h _ _ _ hab hbc) (ih h2')

/-! Widget-level and node-level write-effect lemmas. -/

theorem nodeWidgetFind_rawWrite_same (n : Node) (nm : String) (v : JVal) :
    nodeWidgetFind (nodeRawWrite n nm v) nm
      = (nodeWidgetFind n nm).map (fun w => { w with value := v }) := by
  cases hws : n.widgets with
  | none => simp [nodeWidgetFind, nodeRawWrite, hws]
  | some ws =>
    simp only [nodeWidgetFind, nodeRawWrite, hws, Option.map_some', Option.getD_some]
    cases hf : ws.find? (fun w => w.name == nm) with
    | none => rw [wWriteRaw, updateFirst_no_match _ _ _ hf, hf]; rfl
    | some w =>
      exact find?_updateFirst_self (fun w => w.name == nm)
        (fun w => { w with value := v }) ws w hf (fun b hb => hb)

theorem nodeWidgetFind_rawWrite_ne (n : Node) (nm nm' : String) (v : JVal) (h : nm' ≠ nm) :
    nodeWidgetFind (nodeRawWrite n nm v) nm' = nodeWidgetFind n nm' := by
  cases hws : n.widgets with
  | none => simp [nodeWidgetFind, nodeRawWrite, hws]
  | some ws =>
    simp only [nodeWidgetFind, nodeRawWrite, hws, Option.map_some', Option.getD_some]
    exact find?_updateFirst_of_ne _ _ _ _ (fun b => rfl)
      (fun b hb => by
        have hbnm : b.name = nm := by simpa using hb
        simp [hbnm]
        exact fun hh => h hh.symm)

theorem nodeWidgetFind_writeCb_same (n : Node) (nm : String) (v : JVal) :
    nodeWidgetFind (nodeWriteCb n nm v) nm
      = (nodeWidgetFind n nm).map
          (fun w => { w with value := v, onChangeCalls := bumpCalls w }) := by
  cases hws : n.widgets with
  | none => simp [nodeWidgetFind, nodeWriteCb, hws]
  | some ws =>
    simp only [nodeWidgetFind, nodeWriteCb, hws, Option.map_some', Option.getD_some]
    cases hf : ws.find? (fun w => w.name == nm) with
    | none => rw [wWriteCb, updateFirst_no_match _ _ _ hf, hf]; rfl
    | some w =>
      exact find?_updateFirst_self (fun w => w.name == nm)
        (fun w => { w with value := v, onChangeCalls := bumpCalls w }) ws w hf
        (fun b hb => hb)

theorem nodeWidgetFind_writeCb_ne (n : Node) (nm nm' : String) (v : JVal) (h : nm' ≠ nm) :
    nodeWidgetFind (nodeWriteCb n nm v) nm' = nodeWidgetFind n nm' := by
  cases hws : n.widgets with
  | none => simp [nodeWidgetFind, nodeWriteCb, hws]
  | some ws =>
    simp only [nodeWidgetFind, nodeWriteCb, hws, Option.map_some', Option.getD_some]
    exact find?_updateFirst_of_ne _ _ _ _ (fun b => rfl)
      (fun b hb => by
        have hbnm : b.name = nm := by simpa using hb
        simp [hbnm]
        exact fun hh => h hh.symm)

theorem nodeWidgetFind_setWidgetValue_same (n : Node) (nm : String) (v : JVal) :
    nodeWidgetFind (setWidgetValue n nm v) nm
      = (nodeWidgetFind n nm).map
          (fun w => { w with value := jvDefault v, onChangeCalls := bumpCalls w }) := by
  cases hws : n.widgets with
  | none => simp [nodeWidgetFind, setWidgetValue, hws]
  | some ws =>
    simp only [setWidgetValue, hws]
    cases hf : ws.find? (fun w => w.name == nm) with
    | none => simp [nodeWidgetFind, hws, hf]
    | some w =>
      simp only [nodeWidgetFind, hws, Option.getD_some, hf, Option.map_some']
      exact find?_updateFirst_self (fun w => w.name == nm)
        (fun w => { w with value := jvDefault v, onChangeCalls := bumpCalls w }) ws w hf
        (fun b hb => hb)

theorem nodeWidgetFind_setWidgetValue_ne (n : Node) (nm nm' : String) (v : JVal)
    (h : nm' ≠ nm) :
    nodeWidgetFind (setWidgetValue n nm v) nm' = nodeWidgetFind n nm' := by
  cases hws : n.widgets with
  | none => simp [nodeWidgetFind, setWidgetValue, hws]
  | some ws =>
    simp only [setWidgetValue, hws]
    cases hf : ws.find? (fun w => w.name == nm) with
    | none => simp [nodeWidgetFind, hws, hf]
    | some w =>
      simp only [nodeWidgetFind, hws, Option.getD_some]
      exact find?_updateFirst_of_ne _ _ _ _ (fun b => rfl)
        (fun b hb => by
          have hbnm : b.name = nm := by simpa using hb
          simp [hbnm]
          exact fun hh => h hh.symm)

theorem shapePreserving_rawWrite (nm : String) (v : JVal) :
    ShapePreserving (fun n => nodeRawWrite n nm v) := by
  intro n
  refine ⟨rfl, rfl, rfl, ?_⟩
  cases hws : n.widgets with
  | none => simp [nodeRawWrite, hws]
  | some ws =>
    simp [nodeRawWrite, hws, wWriteRaw,
      map_updateFirst (fun w => w.name == nm) (fun w => { w with value := v })
        Widget.name ws (fun b => rfl)]

theorem shapePreserving_writeCb (nm : String) (v : JVal) :
    ShapePreserving (fun n => nodeWriteCb n nm v) := by
  intro n
  refine ⟨rfl, rfl, rfl, ?_⟩
  cases hws : n.widgets with
  | none => simp [nodeWriteCb, hws]
  | some ws =>
    simp [nodeWriteCb, hws, wWriteCb,
      map_updateFirst (fun w => w.name == nm)
        (fun w => { w with value := v, onChangeCalls := bumpCalls w })
        Widget.name ws (fun b => rfl)]

theorem shapePreserving_setWidgetValue (nm : String) (v : JVal) :
    ShapePreserving (fun n => setWidgetValue n nm v) := by
  intro n
  cases hws : n.widgets with
  | none => simp [setWidgetValue, hws]
  | some ws =>
    cases hf : ws.find? (fun w => w.name == nm) with
    | none => simp [setWidgetValue, hws, hf]
    | some w =>
      refine ⟨?_, ?_, ?_, ?_⟩ <;>
        simp [setWidgetValue, hws, hf, wWriteCb,
          map_updateFirst (fun w => w.name == nm)
            (fun w => { w with value := jvDefault v, onChangeCalls := bumpCalls w })
            Widget.name ws (fun b => rfl)]

/-! Graph-level lookup and write lemmas. -/

theorem lookupLink_updateNodeById (g : Graph) (i : Nat) (f : Node → Node) (l : Nat) :
    lookupLink (updateNodeById g i f) l = lookupLink g l := rfl

theorem getNodeById_updateNodeById_self (g : Graph) (i : Nat) (f : Node → Node) (n : Node)
    (h : getNodeById g i = some n) (hf : ∀ m, (f m).id = m.id) :
    getNodeById (updateNodeById g i f) i = some (f n) :=
  find?_updateFirst_self _ f g.nodes n h (fun b hb => by simpa [hf b] using hb)

theorem getNodeById_updateNodeById_ne (g : Graph) (i j : Nat) (f : Node → Node)
    (hj : j ≠ i) (hf : ∀ m, (f m).id = m.id) :
    getNodeById (updateNodeById g i f) j = getNodeById g j := by
  unfold getNodeById updateNodeById
  exact find?_updateFirst_of_ne (fun n => n.id == i) (fun n => n.id == j) f g.nodes
    (fun b => by simp [hf b])
    (fun b hb => by
      have hbi : b.id = i := by simpa using hb
      simp [hbi]
      exact fun hh => hj hh.symm)

theorem updateNodeById_not_found (g : Graph) (i : Nat) (f : Node → Node)
    (h : getNodeById g i = none) : updateNodeById g i f = g := by
  unfold updateNodeById
  rw [updateFirst_no_match _ _ _ h]

theorem getNodeById_updateNodeById_cases (g : Graph) (i j : Nat) (f : Node → Node)
    (hf : ∀ m, (f m).id = m.id) :
    getNodeById (updateNodeById g i f) j = getNodeById g j ∨
    ∃ n, getNodeById g j = some n ∧ getNodeById (updateNodeById g i f) j = some (f n) := by
  rcases find?_updateFirst_cases (fun n => n.id == i) (fun n => n.id == j) f g.nodes
      (fun b => by simp [hf b]) with h | ⟨a, ha, hpa, ha'⟩
  · exact Or.inl h
  · exact Or.inr ⟨a, ha, ha'⟩

/-! Shape-transport lemmas: widget-value writes never change how links,
consumers or output slots resolve. -/

theorem any_comp_map (f : α → β) (p : β → Bool) (l : List α) :
    (l.map f).any p = l.any (fun a => p (f a)) := by
  induction l with
  | nil => rfl
  | cons x xs ih => simp [List.any_cons, ih]

theorem any_name_eq_of_map_name_eq {ws ws' : List Widget}
    (h : ws.map Widget.name = ws'.map Widget.name) (nm : String) :
    ws.any (fun w => w.name == nm) = ws'.any (fun w => w.name == nm) := by
  calc ws.any (fun w => w.name == nm)
      = (ws.map Widget.name).any (fun s => s == nm) := by
        rw [any_comp_map Widget.name (fun s => s == nm) ws]
    _ = (ws'.map Widget.name).any (fun s => s == nm) := by rw [h]
    _ = ws'.any (fun w => w.name == nm) := by
        rw [any_comp_map Widget.name (fun s => s == nm) ws']

theorem getD_names_eq {a b : Option (List Widget)}
    (h : a.map (List.map Widget.name) = b.map (List.map Widget.name)) :
    (a.getD []).map Widget.name = (b.getD []).map Widget.name := by
  cases a <;> cases b <;> simp_all

theorem consumerOfNode_congr (tid slot : Nat) (a b : Node)
    (hin : a.inputs = b.inputs)
    (hwn : a.widgets.map (List.map Widget.name) = b.widgets.map (List.map Widget.name)) :
    consumerOfNode tid slot a = consumerOfNode tid slot b := by
  unfold consumerOfNode
  rw [hin]
  cases (b.inputs.getD [])[slot]? with
  | none => rfl
  | some inp =>
    dsimp only
    cases inp.widgetName with
    | none => rfl
    | some wn =>
      dsimp only
      rw [any_name_eq_of_map_name_eq (getD_names_eq hwn) wn]

theorem slotLinksOfNode_congr (a b : Node) (h : a.outputs = b.outputs) (slot : Nat) :
    slotLinksOfNode a slot = slotLinksOfNode b slot := by
  unfold slotLinksOfNode
  rw [h]

theorem resolveConsumer_updateNodeById (g : Graph) (i : Nat) (f : Node → Node) (l : Nat)
    (hf : ShapePreserving f) :
    resolveConsumer (updateNodeById g i f) l = resolveConsumer g l := by
  unfold resolveConsumer
  rw [lookupLink_updateNodeById]
  cases lookupLink g l with
  | none => rfl
  | some link =>
    dsimp only
    rcases getNodeById_updateNodeById_cases g i link.target_id f (fun m => (hf m).1)
      with h | ⟨n, hn, hn'⟩
    · rw [h]
    · rw [hn, hn']
      exact consumerOfNode_congr _ _ _ _ (hf n).2.1 (hf n).2.2.2

theorem slotLinks_updateNodeById (g : Graph) (i : Nat) (f : Node → Node) (j slot : Nat)
    (hf : ShapePreserving f) :
    slotLinks (updateNodeById g i f) j slot = slotLinks g j slot := by
  unfold slotLinks
  rcases getNodeById_updateNodeById_cases g i j f (fun m => (hf m).1) with h | ⟨n, hn, hn'⟩
  · rw [h]
  · rw [hn, hn']
    dsimp only
    exact slotLinksOfNode_congr _ _ (hf n).2.2.1 slot

/-! Characterization of one propagation step. -/

theorem propagateOne_none (g : Graph) (l : Nat) (v : JVal)
    (h : resolveConsumer g l = none) : propagateOne g l v = g := by
  unfold propagateOne
  unfold resolveConsumer at h
  cases hl : lookupLink g l with
  | none => rfl
  | some link =>
    rw [hl] at h
    dsimp only at h ⊢
    cases hn : getNodeById g link.target_id with
    | none => rfl
    | some t =>
      rw [hn] at h
      dsimp only at h ⊢
      unfold consumerOfNode at h
      cases hs : (t.inputs.getD [])[link.target_slot]? with
      | none => rfl
      | some inp =>
        rw [hs] at h
        dsimp only at h ⊢
        cases hw : inp.widgetName with
        | none => rfl
        | some wn =>
          rw [hw] at h
          dsimp only at h ⊢
          by_cases hany : (t.widgets.getD []).any (fun x => x.name == wn) = true
          · rw [if_pos hany] at h; cases h
          · rw [if_neg hany]

theorem propagateOne_some (g : Graph) (l : Nat) (v : JVal) (tid : Nat) (wn : String)
    (h : resolveConsumer g l = some (tid, wn)) :
    propagateOne g l v = updateNodeById g tid (fun n => nodeWriteCb n wn v) := by
  unfold propagateOne
  unfold resolveConsumer at h
  cases hl : lookupLink g l with
  | none => rw [hl] at h; cases h
  | some link =>
    rw [hl] at h
    dsimp only at h ⊢
    cases hn : getNodeById g link.target_id with
    | none => rw [hn] at h; cases h
    | some t =>
      rw [hn] at h
      dsimp only at h ⊢
      unfold consumerOfNode at h
      cases hs : (t.inputs.getD [])[link.target_slot]? with
      | none => rw [hs] at h; cases h
      | some inp =>
        rw [hs] at h
        dsimp only at h ⊢
        cases hw : inp.widgetName with
        | none => rw [hw] at h; cases h
        | some wn' =>
          rw [hw] at h
          dsimp only at h ⊢
          by_cases hany : (t.widgets.getD []).any (fun x => x.name == wn') = true
          · rw [if_pos hany] at h
            simp only [Option.some.injEq, Prod.mk.injEq] at h
            obtain ⟨h1, h2⟩ := h
            subst h1; subst h2
            rw [if_pos hany]
          · rw [if_neg hany] at h; cases h

theorem resolveConsumer_target (g : Graph) (l : Nat) (tid : Nat) (wn : String)
    (h : resolveConsumer g l = some (tid, wn)) :
    ∃ n, getNodeById g tid = some n ∧
      (n.widgets.getD []).any (fun w => w.name == wn) = true := by
  unfold resolveConsumer at h
  cases hl : lookupLink g l with
  | none => rw [hl] at h; cases h
  | some link =>
    rw [hl] at h
    dsimp only at h
    cases hn : getNodeById g link.target_id with
    | none => rw [hn] at h; cases h
    | some t =>
      rw [hn] at h
      dsimp only at h
      unfold consumerOfNode at h
      cases hs : (t.inputs.getD [])[link.target_slot]? with
      | none => rw [hs] at h; cases h
      | some inp =>
        rw [hs] at h
        dsimp only at h
        cases hw : inp.widgetName with
        | none => rw [hw] at h; cases h
        | some wn' =>
          rw [hw] at h
          dsimp only at h
          by_cases hany : (t.widgets.getD []).any (fun x => x.name == wn') = true
          · rw [if_pos hany] at h
            simp only [Option.some.injEq, Prod.mk.injEq] at h
            obtain ⟨h1, h2⟩ := h
            subst h1; subst h2
            exact ⟨t, hn, hany⟩
          · rw [if_neg hany] at h; cases h

theorem resolveConsumer_propagateOne (g : Graph) (l : Nat) (v : JVal) (l' : Nat) :
    resolveConsumer (propagateOne g l v) l' = resolveConsumer g l' := by
  cases hc : resolveConsumer g l with
  | none => rw [propagateOne_none g l v hc]
  | some c =>
    obtain ⟨tid, wn⟩ := c
    rw [propagateOne_some g l v tid wn hc]
    exact resolveConsumer_updateNodeById g tid _ l' (fun n => shapePreserving_writeCb wn v n)

theorem slotLinks_propagateOne (g : Graph) (l : Nat) (v : JVal) (j slot : Nat) :
    slotLinks (propagateOne g l v) j slot = slotLinks g j slot := by
  cases hc : resolveConsumer g l with
  | none => rw [propagateOne_none g l v hc]
  | some c =>
    obtain ⟨tid, wn⟩ := c
    rw [propagateOne_some g l v tid wn hc]
    exact slotLinks_updateNodeById g tid _ j slot (fun n => shapePreserving_writeCb wn v n)

/-! Graph-level widget lookups under node updates. -/

theorem widgetFind_updateNodeById_other (g : Graph) (i j : Nat) (f : Node → Node)
    (nm : String) (hj : j ≠ i) (hf : ∀ m, (f m).id = m.id) :
    widgetFind (updateNodeById g i f) j nm = widgetFind g j nm := by
  unfold widgetFind
  rw [getNodeById_updateNodeById_ne g i j f hj hf]

theorem widgetFind_updateNodeById_keep (g : Graph) (i : Nat) (f : Node → Node)
    (nm : String) (hf : ∀ m, (f m).id = m.id)
    (hn : ∀ m, nodeWidgetFind (f m) nm = nodeWidgetFind m nm) :
    widgetFind (updateNodeById g i f) i nm = widgetFind g i nm := by
  unfold widgetFind
  cases hg : getNodeById g i with
  | none => rw [updateNodeById_not_found g i f hg, hg]
  | some n =>
    rw [getNodeById_updateNodeById_self g i f n hg hf]
    simp only [Option.some_bind]
    exact hn n

theorem widgetFind_updateNodeById_write (g : Graph) (i : Nat) (f : Node → Node)
    (nm : String) (u : Widget → Widget) (hf : ∀ m, (f m).id = m.id)
    (hn : ∀ m, nodeWidgetFind (f m) nm = (nodeWidgetFind m nm).map u) :
    widgetFind (updateNodeById g i f) i nm = (widgetFind g i nm).map u := by
  unfold widgetFind
  cases hg : getNodeById g i with
  | none => rw [updateNodeById_not_found g i f hg, hg]; rfl
  | some n =>
    rw [getNodeById_updateNodeById_self g i f n hg hf]
    simp only [Option.some_bind]
    exact hn n

/-! Frame and write effects of a single propagation step. -/

theorem widgetFind_propagateOne_frame (g : Graph) (l : Nat) (v : JVal) (tid : Nat)
    (wn : String) (h : ∀ c, resolveConsumer g l = some c → c ≠ (tid, wn)) :
    widgetFind (propagateOne g l v) tid wn = widgetFind g tid wn := by
  cases hc : resolveConsumer g l with
  | none => rw [propagateOne_none g l v hc]
  | some c =>
    obtain ⟨t', w'⟩ := c
    rw [propagateOne_some g l v t' w' hc]
    by_cases ht : tid = t'
    · subst ht
      have hw : wn ≠ w' := by
        intro he
        exact h (tid, w') hc (by rw [he])
      exact widgetFind_updateNodeById_keep g tid _ wn (fun m => rfl)
        (fun m => nodeWidgetFind_writeCb_ne m w' wn v hw)
    · exact widgetFind_updateNodeById_other g t' tid _ wn ht (fun m => rfl)

theorem widgetFind_propagateOne_write (g : Graph) (l : Nat) (v : JVal) (tid : Nat)
    (wn : String) (h : resolveConsumer g l = some (tid, wn)) :
    ∃ w, widgetFind g tid wn = some w ∧
      widgetFind (propagateOne g l v) tid wn
        = some { w with value := v, onChangeCalls := bumpCalls w } := by
  obtain ⟨n, hn, hany⟩ := resolveConsumer_target g l tid wn h
  obtain ⟨w, hw⟩ : ∃ w, (n.widgets.getD []).find? (fun x => x.name == wn) = some w := by
    rw [← Option.isSome_iff_exists, List.find?_isSome]
    simpa using List.any_eq_true.mp hany
  refine ⟨w, ?_, ?_⟩
  · unfold widgetFind
    rw [hn]
    simpa [nodeWidgetFind] using hw
  · rw [propagateOne_some g l v tid wn h]
    rw [widgetFind_updateNodeById_write g tid (fun m => nodeWriteCb m wn v) wn
      (fun w => { w with value := v, onChangeCalls := bumpCalls w }) (fun m => rfl)
      (fun m => nodeWidgetFind_writeCb_same m wn v)]
    unfold widgetFind
    rw [hn]
    simp [nodeWidgetFind, hw]

/-! Fold lemmas: effects of propagating over a whole link list. -/

theorem resolveConsumer_foldl (v : JVal) (lids : List Nat) (g : Graph) (l' : Nat) :
    resolveConsumer (lids.foldl (fun acc lid => propagateOne acc lid v) g) l'
      = resolveConsumer g l' := by
  induction lids generalizing g with
  | nil => rfl
  | cons l0 rest ih =>
    rw [List.foldl_cons, ih (propagateOne g l0 v), resolveConsumer_propagateOne]

theorem slotLinks_foldl (v : JVal) (lids : List Nat) (g : Graph) (j slot : Nat) :
    slotLinks (lids.foldl (fun acc lid => propagateOne acc lid v) g) j slot
      = slotLinks g j slot := by
  induction lids generalizing g with
  | nil => rfl
  | cons l0 rest ih =>
    rw [List.foldl_cons, ih (propagateOne g l0 v), slotLinks_propagateOne]

theorem widgetFind_foldl_frame (v : JVal) (lids : List Nat) (g : Graph) (tid : Nat)
    (wn : String)
    (h : ∀ l ∈ lids, ∀ c, resolveConsumer g l = some c → c ≠ (tid, wn)) :
    widgetFind (lids.foldl (fun acc lid => propagateOne acc lid v) g) tid wn
      = widgetFind g tid wn := by
  induction lids generalizing g with
  | nil => rfl
  | cons l0 rest ih =>
    have hr : ∀ l ∈ rest, ∀ c,
        resolveConsumer (propagateOne g l0 v) l = some c → c ≠ (tid, wn) := by
      intro l hl c hc
      rw [resolveConsumer_propagateOne g l0 v l] at hc
      exact h l (List.mem_cons_of_mem l0 hl) c hc
    rw [List.foldl_cons, ih (propagateOne g l0 v) hr,
        widgetFind_propagateOne_frame g l0 v tid wn (h l0 (List.mem_cons_self l0 rest))]

theorem widgetValue_propagateOne_keep (g : Graph) (l : Nat) (v : JVal) (tid : Nat)
    (wn : String) (h : widgetValue g tid wn = some v) :
    widgetValue (propagateOne g l v) tid wn = some v := by
  cases hc : resolveConsumer g l with
  | none => rw [propagateOne_none g l v hc]; exact h
  | some c =>
    obtain ⟨t', w'⟩ := c
    by_cases hcw : (t', w') = (tid, wn)
    · obtain ⟨w, hw1, hw2⟩ := widgetFind_propagateOne_write g l v tid wn (hcw ▸ hc)
      simp [widgetValue, hw2]
    · have hfr : widgetFind (propagateOne g l v) tid wn = widgetFind g tid wn := by
        apply widgetFind_propagateOne_frame g l v tid wn
        intro c' hc'
        rw [hc] at hc'
        have he : c' = (t', w') := (Option.some.inj hc').symm
        subst he
        exact hcw
      unfold widgetValue at h ⊢
      rw [hfr]
      exact h

theorem widgetValue_foldl_keep (v : JVal) (lids : List Nat) (g : Graph) (tid : Nat)
    (wn : String) (h : widgetValue g tid wn = some v) :
    widgetValue (lids.foldl (fun acc lid => propagateOne acc lid v) g) tid wn = some v := by
  induction lids generalizing g with
  | nil => exact h
  | cons l0 rest ih =>
    rw [List.foldl_cons]
    exact ih (propagateOne g l0 v) (widgetValue_propagateOne_keep g l0 v tid wn h)

theorem widgetValue_foldl_deliver (v : JVal) (lids : List Nat) (g : Graph) (tid : Nat)
    (wn : String) (h : (tid, wn) ∈ lids.filterMap (resolveConsumer g)) :
    widgetValue (lids.foldl (fun acc lid => propagateOne acc lid v) g) tid wn = some v := by
  induction lids generalizing g with
  | nil => simp at h
  | cons l0 rest ih =>
    rw [List.foldl_cons]
    have hres : rest.filterMap (resolveConsumer (propagateOne g l0 v))
        = rest.filterMap (resolveConsumer g) := by
      have hfn : resolveConsumer (propagateOne g l0 v) = resolveConsumer g :=
        funext (fun l' => resolveConsumer_propagateOne g l0 v l')
      rw [hfn]
    rw [List.filterMap_cons] at h
    cases hc : resolveConsumer g l0 with
    | none =>
      rw [hc] at h
      exact ih (propagateOne g l0 v) (by rw [hres]; exact h)
    | some c =>
      rw [hc] at h
      rcases List.mem_cons.mp h with he | hm
      · have hc' : resolveConsumer g l0 = some (tid, wn) := by rw [hc, ← he]
        obtain ⟨w, hw1, hw2⟩ := widgetFind_propagateOne_write g l0 v tid wn hc'
        apply widgetValue_foldl_keep v rest (propagateOne g l0 v) tid wn
        simp [widgetValue, hw2]
      · exact ih (propagateOne g l0 v) (by rw [hres]; exact hm)

/-! Delivery and frame conditions for a whole propagateOutput call. -/

theorem propagateOutput_deliver (g : Graph) (i slot : Nat) (v : JVal) (tid : Nat)
    (wn : String) (h : (tid, wn) ∈ slotConsumers g i slot) :
    widgetValue (propagateOutput g i slot v) tid wn = some v :=
  widgetValue_foldl_deliver v (slotLinks g i slot) g tid wn h

theorem propagateOutput_frame (g : Graph) (i slot : Nat) (v : JVal) (tid : Nat)
    (wn : String) (h : ∀ c ∈ slotConsumers g i slot, c ≠ (tid, wn)) :
    widgetFind (propagateOutput g i slot v) tid wn = widgetFind g tid wn := by
  apply widgetFind_foldl_frame
  intro l hl c hc
  exact h c (List.mem_filterMap.mpr ⟨l, hl, hc⟩)

theorem slotConsumers_propagateOutput (g : Graph) (i slot : Nat) (v : JVal) (j s : Nat) :
    slotConsumers (propagateOutput g i slot v) j s = slotConsumers g j s := by
  unfold slotConsumers propagateOutput
  rw [slotLinks_foldl v (slotLinks g i slot) g j s]
  have hfn : resolveConsumer ((slotLinks g i slot).foldl
      (fun acc linkId => propagateOne acc linkId v) g) = resolveConsumer g :=
    funext (fun l' => resolveConsumer_foldl v (slotLinks g i slot) g l')
  rw [hfn]

theorem slotConsumers_updateNodeById (g : Graph) (i : Nat) (f : Node → Node) (j s : Nat)
    (hf : ShapePreserving f) :
    slotConsumers (updateNodeById g i f) j s = slotConsumers g j s := by
  unfold slotConsumers
  rw [slotLinks_updateNodeById g i f j s hf]
  have hfn : resolveConsumer (updateNodeById g i f) = resolveConsumer g :=
    funext (fun l' => resolveConsumer_updateNodeById g i f l' hf)
  rw [hfn]

/-! Additional frame lemmas used by the claims about the dispatcher. -/

theorem forall₂_updateNodeById (g : Graph) (i : Nat) (f : Node → Node) :
    List.Forall₂ (fun a b => a.id ≠ i → b = a) g.nodes (updateNodeById g i f).nodes := by
  show List.Forall₂ (fun a b => a.id ≠ i → b = a) g.nodes
    (updateFirst (fun n => n.id == i) f g.nodes)
  refine List.Forall₂.imp ?_ (forall₂_updateFirst (fun n => n.id == i) f g.nodes)
  intro a b hab hai
  rcases hab with hba | ⟨hpa, hbf⟩
  · exact hba
  · exact absurd (by simpa using hpa) hai

theorem foldl_nodes_frame (v : JVal) (lids : List Nat) (g : Graph) (i : Nat)
    (h : ∀ l ∈ lids, ∀ c, resolveConsumer g l = some c → c.1 ≠ i) :
    List.Forall₂ (fun a b => a.id = i → b = a) g.nodes
      (lids.foldl (fun acc lid => propagateOne acc lid v) g).nodes := by
  induction lids generalizing g with
  | nil => exact List.forall₂_same.mpr (fun a _ _ => rfl)
  | cons l0 rest ih =>
    rw [List.foldl_cons]
    have step : List.Forall₂ (fun a b => a.id = i → b = a) g.nodes
        (propagateOne g l0 v).nodes := by
      cases hc : resolveConsumer g l0 with
      | none =>
        rw [propagateOne_none g l0 v hc]
        exact List.forall₂_same.mpr (fun a _ _ => rfl)
      | some c =>
        obtain ⟨tid, wn⟩ := c
        have htid : tid ≠ i := h l0 (List.mem_cons_self _ _) (tid, wn) hc
        rw [propagateOne_some g l0 v tid wn hc]
        show List.Forall₂ (fun a b => a.id = i → b = a) g.nodes
          (updateFirst (fun n => n.id == tid) (fun n => nodeWriteCb n wn v) g.nodes)
        refine List.Forall₂.imp ?_
          (forall₂_updateFirst (fun n => n.id == tid) (fun n => nodeWriteCb n wn v) g.nodes)
        intro a b hab hai
        rcases hab with hba | ⟨hpa, hbf⟩
        · exact hba
        · exfalso
          have hat : a.id = tid := by simpa using hpa
          exact htid (by rw [← hat]; exact hai)
    have hrest : ∀ l ∈ rest, ∀ c,
        resolveConsumer (propagateOne g l0 v) l = some c → c.1 ≠ i := by
      intro l hl c hc
      rw [resolveConsumer_propagateOne g l0 v l] at hc
      exact h l (List.mem_cons_of_mem _ hl) c hc
    refine forall₂_trans_comp step (ih (propagateOne g l0 v) hrest) ?_
    intro a b c hab hbc hai
    have h1 : b = a := hab hai
    have h2 : c = b := hbc (by rw [h1]; exact hai)
    rw [h2, h1]

/-! Claim theorems about the history modal and the viewer widget. -/

/-- C8: at most one history modal exists per process: the first open creates
the overlay and content surface, every later open reuses the same one without
creating again, and every open fully replaces the displayed content, so after
opening with text a and then text b the modal shows exactly b. -/
theorem c8_modal_singleton_replacement (s : UIState) (a b : String) :
    (openHistoryModal s a).historyModal
        = some { content := a, visible := true, scrollScheduled := true } ∧
    (openHistoryModal (openHistoryModal s a) b).historyModal
        = some { content := b, visible := true, scrollScheduled := true } ∧
    (openHistoryModal s a).createdCount
        = (if s.historyModal.isSome then s.createdCount else s.createdCount + 1) ∧
    (openHistoryModal (openHistoryModal s a) b).createdCount
        = (openHistoryModal s a).createdCount := by
  cases hm : s.historyModal with
  | none => simp [openHistoryModal, ensureHistoryModal, hm]
  | some m => simp [openHistoryModal, ensureHistoryModal, hm]

/-- C9: when the history widget's change callback fires while the modal is
open, the modal is re-opened showing exactly the new text with a scroll to the
bottom scheduled; while the modal is closed or not yet created, the modal
state is left untouched; in both cases the new value is mirrored into the
widget's backing input element when one exists. -/
theorem c9_history_onchange_sync (s : UIState) (el : Option String) (v : String) :
    (isHistoryModalOpen s = true →
      (historyOnChange s el v).1.historyModal
        = some { content := v, visible := true, scrollScheduled := true }) ∧
    (isHistoryModalOpen s = false → (historyOnChange s el v).1 = s) ∧
    (∀ x, el = some x → (historyOnChange s el v).2 = some v) := by
  refine ⟨?_, ?_, ?_⟩
  · intro h
    cases hm : s.historyModal with
    | none => rw [isHistoryModalOpen, hm] at h; cases h
    | some m => simp [historyOnChange, h, openHistoryModal, ensureHistoryModal, hm]
  · intro h
    simp [historyOnChange, h]
  · intro x hx
    subst hx
    by_cases hv : (x == v) = true
    · have hxv : x = v := by simpa using hv
      simp [historyOnChange, hv, hxv]
    · simp [historyOnChange, hv]

/-- Witness for C9 at a concrete open-modal state. -/
theorem c9_history_onchange_sync_witness :
    isHistoryModalOpen uiOpenABC = true ∧
    (historyOnChange uiOpenABC (some "A\nB\nC") "A\nB\nC\nD").1.historyModal
      = some { content := "A\nB\nC\nD", visible := true, scrollScheduled := true } :=
  ⟨by decide,
   (c9_history_onchange_sync uiOpenABC (some "A\nB\nC") "A\nB\nC\nD").1 (by decide)⟩

/-! Claim theorems about output propagation. -/

/-- C6: propagation over an output slot is best effort: every fully resolvable
consumer of the slot receives the value, regardless of unresolvable links
attached to the same slot (a dangling link id, a missing target node, a
missing widget binding or a missing named widget are skipped, and the model is
total so no exception is possible); widgets that are not resolvable consumers
of the slot are untouched. -/
theorem c6_propagate_skip_and_deliver (g : Graph) (i slot : Nat) (v : JVal) :
    (∀ c ∈ slotConsumers g i slot,
        widgetValue (propagateOutput g i slot v) c.1 c.2 = some v) ∧
    (∀ tid wn, (tid, wn) ∉ slotConsumers g i slot →
        widgetFind (propagateOutput g i slot v) tid wn = widgetFind g tid wn) := by
  refine ⟨?_, ?_⟩
  · intro c hc
    obtain ⟨tid, wn⟩ := c
    exact propagateOutput_deliver g i slot v tid wn hc
  · intro tid wn h
    exact propagateOutput_frame g i slot v tid wn (fun c hc he => h (he ▸ hc))

/-- Witness for C6: on gC6 the slot carries one unresolvable-widget link, one
dangling link and one link to a node without inputs, and the one resolvable
consumer still receives the value. -/
theorem c6_propagate_skip_and_deliver_witness :
    ((3, "text") ∈ slotConsumers gC6 10 0) ∧
    widgetValue (propagateOutput gC6 10 0 (JVal.str "new")) 3 "text"
      = some (JVal.str "new") :=
  ⟨by decide,
   (c6_propagate_skip_and_deliver gC6 10 0 (JVal.str "new")).1 (3, "text") (by decide)⟩

/-- C7 counterexample: with a link from node 1's output slot 0 back to node 1
itself, propagateOutput mutates the source node: its widget value changes from
old to new, refuting the claim that the source node is never mutated for every
graph including self-link graphs. -/
theorem c7_counterexample :
    widgetValue gC7 1 "w" = some (JVal.str "old") ∧
    widgetValue (propagateOutput gC7 1 0 (JVal.str "new")) 1 "w"
      = some (JVal.str "new") := by
  constructor <;> decide

/-- C7 amended: propagation only mutates nodes that are targets of the slot's
resolvable links; in particular, whenever no resolvable consumer of the slot
lives on the source node itself, every node carrying the source id is left
entirely unchanged (widgets, inputs and outputs included). -/
theorem c7_propagate_source_unmutated (g : Graph) (i slot : Nat) (v : JVal)
    (h : ∀ c ∈ slotConsumers g i slot, c.1 ≠ i) :
    List.Forall₂ (fun a b => a.id = i → b = a) g.nodes
      (propagateOutput g i slot v).nodes := by
  apply foldl_nodes_frame
  intro l hl c hc
  exact h c (List.mem_filterMap.mpr ⟨l, hl, hc⟩)

/-- Witness for the amended C7 on a graph without self-links. -/
theorem c7_propagate_source_unmutated_witness :
    (∀ c ∈ slotConsumers gC7b 1 0, c.1 ≠ 1) ∧
    List.Forall₂ (fun a b => a.id = 1 → b = a) gC7b.nodes
      (propagateOutput gC7b 1 0 (JVal.str "x")).nodes :=
  ⟨by decide, c7_propagate_source_unmutated gC7b 1 0 (JVal.str "x") (by decide)⟩

/-! Specializations of the write lemmas to the three widget writers. -/

theorem widgetFind_rawWrite_keep (g : Graph) (i : Nat) (nm nm' : String) (v : JVal)
    (h : nm' ≠ nm) :
    widgetFind (updateNodeById g i (fun n => nodeRawWrite n nm v)) i nm'
      = widgetFind g i nm' :=
  widgetFind_updateNodeById_keep g i _ nm' (fun _ => rfl)
    (fun m => nodeWidgetFind_rawWrite_ne m nm nm' v h)

theorem widgetFind_rawWrite_write (g : Graph) (i : Nat) (nm : String) (v : JVal) :
    widgetFind (updateNodeById g i (fun n => nodeRawWrite n nm v)) i nm
      = (widgetFind g i nm).map (fun w => { w with value := v }) :=
  widgetFind_updateNodeById_write g i _ nm _ (fun _ => rfl)
    (fun m => nodeWidgetFind_rawWrite_same m nm v)

theorem widgetFind_setW_keep (g : Graph) (i : Nat) (nm nm' : String) (v : JVal)
    (h : nm' ≠ nm) :
    widgetFind (updateNodeById g i (fun n => setWidgetValue n nm v)) i nm'
      = widgetFind g i nm' :=
  widgetFind_updateNodeById_keep g i _ nm' (fun m => (shapePreserving_setWidgetValue nm v m).1)
    (fun m => nodeWidgetFind_setWidgetValue_ne m nm nm' v h)

theorem widgetFind_setW_write (g : Graph) (i : Nat) (nm : String) (v : JVal) :
    widgetFind (updateNodeById g i (fun n => setWidgetValue n nm v)) i nm
      = (widgetFind g i nm).map
          (fun w => { w with value := jvDefault v, onChangeCalls := bumpCalls w }) :=
  widgetFind_updateNodeById_write g i _ nm _ (fun m => (shapePreserving_setWidgetValue nm v m).1)
    (fun m => nodeWidgetFind_setWidgetValue_same m nm v)

theorem propagateOutput_frame_node (g : Graph) (i slot : Nat) (v : JVal) (tid : Nat)
    (wn : String) (h : ∀ c ∈ slotConsumers g i slot, c.1 ≠ tid) :
    widgetFind (propagateOutput g i slot v) tid wn = widgetFind g tid wn :=
  propagateOutput_frame g i slot v tid wn (fun c hc he => h c hc (by rw [he]))

theorem slotConsumers_rawWrite (g : Graph) (i : Nat) (nm : String) (v : JVal) (j s : Nat) :
    slotConsumers (updateNodeById g i (fun n => nodeRawWrite n nm v)) j s
      = slotConsumers g j s :=
  slotConsumers_updateNodeById g i _ j s (shapePreserving_rawWrite nm v)

/-! Claim theorem for the failure path of the dispatcher. -/

/-- C2: after a failed dispatch with error message msg, the node's status
widget holds exactly the string error-colon-space followed by msg, every other
widget of the node (the two caches and user_message included) is unchanged,
and every node with a different id is entirely unchanged: nothing is
propagated and the failure is local to the dispatching node. -/
theorem c2_dispatch_failure (g : Graph) (i : Nat) (msg : String) (n0 : Node)
    (hn : getNodeById g i = some n0)
    (hs : (nodeWidgetFind n0 "status").isSome = true) :
    widgetValue (sendFailure g i msg) i "status"
        = some (.str ("error: " ++ msg)) ∧
    (∀ nm, nm ≠ "status" →
        widgetFind (sendFailure g i msg) i nm = widgetFind g i nm) ∧
    List.Forall₂ (fun a b => a.id ≠ i → b = a) g.nodes (sendFailure g i msg).nodes := by
  have hsend : sendFailure g i msg
      = updateNodeById
          (updateNodeById g i
            (fun n => nodeRawWrite n "status" (statusWorking (readAction n0)))) i
          (fun n => nodeRawWrite n "status" (.str ("error: " ++ msg))) := by
    unfold sendFailure
    rw [hn]
  obtain ⟨w0, hw0⟩ : ∃ w, widgetFind g i "status" = some w := by
    rw [← Option.isSome_iff_exists]
    unfold widgetFind
    rw [hn]
    exact hs
  refine ⟨?_, ?_, ?_⟩
  · rw [widgetValue, hsend, widgetFind_rawWrite_write, widgetFind_rawWrite_write, hw0]
    rfl
  · intro nm hnm
    rw [hsend, widgetFind_rawWrite_keep _ _ _ _ _ hnm, widgetFind_rawWrite_keep _ _ _ _ _ hnm]
  · rw [hsend]
    refine forall₂_trans_comp (forall₂_updateNodeById g i _)
      (forall₂_updateNodeById _ i _) ?_
    intro a b c hab hbc hai
    have h1 : b = a := hab hai
    have h2 : c = b := hbc (by rw [h1]; exact hai)
    rw [h2, h1]

/-- Witness for C2 at a concrete node and a concrete failure message. -/
theorem c2_dispatch_failure_witness :
    (getNodeById gC2 1 = some nC2 ∧ (nodeWidgetFind nC2 "status").isSome = true) ∧
    widgetValue (sendFailure gC2 1 "boom") 1 "status"
      = some (.str ("error: " ++ "boom")) :=
  ⟨⟨by decide, by decide⟩,
   (c2_dispatch_failure gC2 1 "boom" nC2 (by decide) (by decide)).1⟩

/-! Claim theorem for the success path of the dispatcher. -/

/-- C1: after a successful dispatch with response fields defaulting to the
empty string when absent, the hidden cache widgets assistant_response_preview
and history_preview hold exactly the response strings, the status widget holds
done, the assistant string was delivered to every resolvable consumer of
output slot 0 and the history string to every resolvable consumer of output
slot 1, and the user_message widget is cleared to the empty string exactly
when the selected action is send and the auto_clear_input toggle is truthy.
The hypotheses require the dispatching node and its bookkeeping widgets to
exist, no consumer of slot 0 or 1 to live on the dispatching node itself, and
no consumer widget to be wired to both slots. -/
theorem c1_dispatch_success (g : Graph) (i : Nat) (resp : ChatResp) (n0 : Node)
    (hn : getNodeById g i = some n0)
    (hs : (nodeWidgetFind n0 "status").isSome = true)
    (ha : (nodeWidgetFind n0 "assistant_response_preview").isSome = true)
    (hh : (nodeWidgetFind n0 "history_preview").isSome = true)
    (hu : (nodeWidgetFind n0 "user_message").isSome = true)
    (ht0 : ∀ c ∈ slotConsumers g i 0, c.1 ≠ i)
    (ht1 : ∀ c ∈ slotConsumers g i 1, c.1 ≠ i)
    (hd : ∀ c ∈ slotConsumers g i 0, c ∉ slotConsumers g i 1) :
    widgetValue (sendSuccess g i resp) i "assistant_response_preview"
        = some (.str (resp.assistant_response.getD "")) ∧
    widgetValue (sendSuccess g i resp) i "history_preview"
        = some (.str (resp.readable_history.getD "")) ∧
    widgetValue (sendSuccess g i resp) i "status" = some (.str "done") ∧
    (∀ c ∈ slotConsumers g i 0,
        widgetValue (sendSuccess g i resp) c.1 c.2
          = some (.str (resp.assistant_response.getD ""))) ∧
    (∀ c ∈ slotConsumers g i 1,
        widgetValue (sendSuccess g i resp) c.1 c.2
          = some (.str (resp.readable_history.getD ""))) ∧
    ((jvEqStr (readAction n0) "send" && autoClearOf g i) = true →
        widgetValue (sendSuccess g i resp) i "user_message" = some (.str "")) ∧
    ((jvEqStr (readAction n0) "send" && autoClearOf g i) = false →
        widgetValue (sendSuccess g i resp) i "user_message"
          = widgetValue g i "user_message") := by
  obtain ⟨wA, hwA⟩ : ∃ w, widgetFind g i "assistant_response_preview" = some w := by
    rw [← Option.isSome_iff_exists]
    unfold widgetFind
    rw [hn]
    simpa using ha
  obtain ⟨wH, hwH⟩ : ∃ w, widgetFind g i "history_preview" = some w := by
    rw [← Option.isSome_iff_exists]
    unfold widgetFind
    rw [hn]
    simpa using hh
  obtain ⟨wS, hwS⟩ : ∃ w, widgetFind g i "status" = some w := by
    rw [← Option.isSome_iff_exists]
    unfold widgetFind
    rw [hn]
    simpa using hs
  obtain ⟨wU, hwU⟩ : ∃ w, widgetFind g i "user_message" = some w := by
    rw [← Option.isSome_iff_exists]
    unfold widgetFind
    rw [hn]
    simpa using hu
  unfold sendSuccess
  rw [hn]
  dsimp only
  set R := JVal.str (resp.assistant_response.getD "") with hR
  set H := JVal.str (resp.readable_history.getD "") with hH
  set G1 := updateNodeById g i
    (fun n => nodeRawWrite n "status" (statusWorking (readAction n0))) with hG1
  set G2 := updateNodeById G1 i
    (fun n => nodeRawWrite n "assistant_response_preview" R) with hG2
  set G3 := updateNodeById G2 i
    (fun n => nodeRawWrite n "history_preview" H) with hG3
  set G4 := propagateOutput G3 i 0 R with hG4
  set G5 := propagateOutput G4 i 1 H with hG5
  set CND := jvEqStr (readAction n0) "send" && autoClearOf G5 i with hCND
  set G6 := (if CND = true
             then updateNodeById G5 i
               (fun n => setWidgetValue n "user_message" (JVal.str ""))
             else G5) with hG6
  have sc00 : slotConsumers G3 i 0 = slotConsumers g i 0 := by
    rw [hG3, slotConsumers_rawWrite, hG2, slotConsumers_rawWrite, hG1,
        slotConsumers_rawWrite]
  have sc10 : slotConsumers G3 i 1 = slotConsumers g i 1 := by
    rw [hG3, slotConsumers_rawWrite, hG2, slotConsumers_rawWrite, hG1,
        slotConsumers_rawWrite]
  have sc14 : slotConsumers G4 i 1 = slotConsumers g i 1 := by
    rw [hG4, slotConsumers_propagateOutput, sc10]
  have hprop : ∀ nm, widgetFind G5 i nm = widgetFind G3 i nm := by
    intro nm
    have h4 : widgetFind G4 i nm = widgetFind G3 i nm := by
      rw [hG4]
      exact propagateOutput_frame_node G3 i 0 R i nm (by rw [sc00]; exact ht0)
    have h5 : widgetFind G5 i nm = widgetFind G4 i nm := by
      rw [hG5]
      exact propagateOutput_frame_node G4 i 1 H i nm (by rw [sc14]; exact ht1)
    rw [h5, h4]
  have hG3keep : ∀ nm, nm ≠ "status" → nm ≠ "assistant_response_preview" →
      nm ≠ "history_preview" → widgetFind G3 i nm = widgetFind g i nm := by
    intro nm h1 h2 h3
    rw [hG3, widgetFind_rawWrite_keep _ _ _ _ _ h3, hG2,
        widgetFind_rawWrite_keep _ _ _ _ _ h2, hG1, widgetFind_rawWrite_keep _ _ _ _ _ h1]
  have hac : autoClearOf G5 i = autoClearOf g i := by
    unfold autoClearOf widgetValue
    rw [hprop "auto_clear_input",
        hG3keep "auto_clear_input" (by decide) (by decide) (by decide)]
  have hCNDg : CND = (jvEqStr (readAction n0) "send" && autoClearOf g i) := by
    rw [hCND, hac]
  have hG6keep : ∀ nm, nm ≠ "user_message" → widgetFind G6 i nm = widgetFind G5 i nm := by
    intro nm hnm
    rw [hG6]
    by_cases hC : CND = true
    · rw [if_pos hC, widgetFind_setW_keep _ _ _ _ _ hnm]
    · rw [if_neg hC]
  have hG6other : ∀ tid nm, tid ≠ i → widgetFind G6 tid nm = widgetFind G5 tid nm := by
    intro tid nm htid
    rw [hG6]
    by_cases hC : CND = true
    · rw [if_pos hC]
      exact widgetFind_updateNodeById_other G5 i tid _ nm htid
        (fun m => (shapePreserving_setWidgetValue "user_message" (JVal.str "") m).1)
    · rw [if_neg hC]
  have hG7keep : ∀ nm, nm ≠ "status" →
      widgetFind (updateNodeById G6 i
        (fun n => nodeRawWrite n "status" (JVal.str "done"))) i nm
        = widgetFind G6 i nm :=
    fun nm hnm => widgetFind_rawWrite_keep _ _ _ _ _ hnm
  have hG7other : ∀ tid nm, tid ≠ i →
      widgetFind (updateNodeById G6 i
        (fun n => nodeRawWrite n "status" (JVal.str "done"))) tid nm
        = widgetFind G6 tid nm :=
    fun tid nm htid =>
      widgetFind_updateNodeById_other G6 i tid _ nm htid (fun m => rfl)
  refine ⟨?_, ?_, ?_, ?_, ?_, ?_, ?_⟩
  · unfold widgetValue
    rw [hG7keep _ (by decide), hG6keep _ (by decide), hprop, hG3,
        widgetFind_rawWrite_keep _ _ _ _ _ (by decide), hG2, widgetFind_rawWrite_write,
        hG1, widgetFind_rawWrite_keep _ _ _ _ _ (by decide), hwA]
    rfl
  · unfold widgetValue
    rw [hG7keep _ (by decide), hG6keep _ (by decide), hprop, hG3,
        widgetFind_rawWrite_write, hG2, widgetFind_rawWrite_keep _ _ _ _ _ (by decide),
        hG1, widgetFind_rawWrite_keep _ _ _ _ _ (by decide), hwH]
    rfl
  · unfold widgetValue
    rw [widgetFind_rawWrite_write, hG6keep _ (by decide), hprop, hG3,
        widgetFind_rawWrite_keep _ _ _ _ _ (by decide), hG2,
        widgetFind_rawWrite_keep _ _ _ _ _ (by decide), hG1, widgetFind_rawWrite_write,
        hwS]
    rfl
  · intro c hc
    have hci : c.1 ≠ i := ht0 c hc
    unfold widgetValue
    rw [hG7other c.1 c.2 hci, hG6other c.1 c.2 hci]
    have hdel : widgetValue G4 c.1 c.2 = some R := by
      rw [hG4]
      refine propagateOutput_deliver G3 i 0 R c.1 c.2 ?_
      rw [sc00]
      exact hc
    have hfr : widgetFind G5 c.1 c.2 = widgetFind G4 c.1 c.2 := by
      rw [hG5]
      refine propagateOutput_frame G4 i 1 H c.1 c.2 ?_
      intro c' hc' he
      rw [sc14] at hc'
      rw [he] at hc'
      exact hd c hc hc'
    rw [hfr]
    unfold widgetValue at hdel
    exact hdel
  · intro c hc
    have hci : c.1 ≠ i := ht1 c hc
    unfold widgetValue
    rw [hG7other c.1 c.2 hci, hG6other c.1 c.2 hci]
    have hdel : widgetValue G5 c.1 c.2 = some H := by
      rw [hG5]
      refine propagateOutput_deliver G4 i 1 H c.1 c.2 ?_
      rw [sc14]
      exact hc
    unfold widgetValue at hdel
    exact hdel
  · intro hcond
    have hC : CND = true := by rw [hCNDg]; exact hcond
    unfold widgetValue
    rw [hG7keep _ (by decide), hG6, if_pos hC, widgetFind_setW_write, hprop,
        hG3keep "user_message" (by decide) (by decide) (by decide), hwU]
    rfl
  · intro hcond
    have hC : CND = false := by rw [hCNDg]; exact hcond
    have hG6eq : G6 = G5 := by
      rw [hG6, hC]
      simp
    unfold widgetValue
    rw [hG7keep _ (by decide), hG6eq, hprop,
        hG3keep "user_message" (by decide) (by decide) (by decide)]

/-- Witness for C1: a concrete send dispatch with auto-clear enabled and one
consumer on each output slot. -/
theorem c1_dispatch_success_witness :
    (getNodeById gC1 1 = some nC1 ∧
     (∀ c ∈ slotConsumers gC1 1 0, c.1 ≠ 1) ∧
     (∀ c ∈ slotConsumers gC1 1 0, c ∉ slotConsumers gC1 1 1)) ∧
    widgetValue (sendSuccess gC1 1 respC1) 1 "assistant_response_preview"
      = some (.str "reply") ∧
    widgetValue (sendSuccess gC1 1 respC1) 1 "user_message" = some (.str "") :=
  ⟨⟨by decide, by decide, by decide⟩,
   (c1_dispatch_success gC1 1 respC1 nC1 (by decide) (by decide) (by decide) (by decide)
      (by decide) (by decide) (by decide) (by decide)).1,
   (c1_dispatch_success gC1 1 respC1 nC1 (by decide) (by decide) (by decide) (by decide)
      (by decide) (by decide) (by decide) (by decide)).2.2.2.2.2.1 (by decide)⟩

/-! JavaScript object-assignment lemmas for the dispatch payload. -/

theorem find?_updateFirst_of_ne' (p q : α → Bool) (f : α → α) (l : List α)
    (hq' : ∀ b, p b = true → q (f b) = false)
    (hpq : ∀ b, p b = true → q b = false) :
    (updateFirst p f l).find? q = l.find? q := by
  induction l with
  | nil => rfl
  | cons x xs ih =>
    by_cases hp : p x = true
    · have h1 := hq' x hp
      have h2 := hpq x hp
      have e : updateFirst p f (x :: xs) = f x :: xs := by simp [updateFirst, hp]
      rw [e, List.find?_cons_of_neg _ (by simp [h1]), List.find?_cons_of_neg _ (by simp [h2])]
    · have e : updateFirst p f (x :: xs) = x :: updateFirst p f xs := by
        simp [updateFirst, hp]
      rw [e]
      by_cases hq : q x = true
      · rw [List.find?_cons_of_pos _ hq, List.find?_cons_of_pos _ hq]
      · rw [List.find?_cons_of_neg _ (by simp [hq]), List.find?_cons_of_neg _ (by simp [hq]),
            ih]

theorem lookupKey_objSet_same (o : List (String × PVal)) (k : String) (x : PVal) :
    lookupKey (objSet o k x) k = some x := by
  unfold objSet
  by_cases h : o.any (fun p => p.1 == k) = true
  · rw [if_pos h]
    obtain ⟨a, ha⟩ : ∃ a, o.find? (fun p => p.1 == k) = some a := by
      rw [← Option.isSome_iff_exists, List.find?_isSome]
      simpa using List.any_eq_true.mp h
    unfold lookupKey
    rw [find?_updateFirst_self (fun p => p.1 == k) (fun _ => (k, x)) o a ha
      (fun b hb => by simp)]
    rfl
  · rw [if_neg h]
    unfold lookupKey
    rw [List.find?_append]
    have hnone : o.find? (fun p => p.1 == k) = none := by
      rw [List.find?_eq_none]
      intro a ha hpa
      exact h (List.any_eq_true.mpr ⟨a, ha, hpa⟩)
    rw [hnone]
    simp [List.find?]

theorem lookupKey_objSet_ne (o : List (String × PVal)) (k k' : String) (x : PVal)
    (h : k' ≠ k) : lookupKey (objSet o k x) k' = lookupKey o k' := by
  unfold objSet
  by_cases ha : o.any (fun p => p.1 == k) = true
  · rw [if_pos ha]
    unfold lookupKey
    rw [find?_updateFirst_of_ne' (fun p => p.1 == k) (fun p => p.1 == k')
        (fun _ => (k, x)) o
        (fun b hb => beq_eq_false_iff_ne.mpr (Ne.symm h))
        (fun b hb => by
          have hbk : b.1 = k := by simpa using hb
          show (b.1 == k') = false
          rw [hbk]
          exact beq_eq_false_iff_ne.mpr (Ne.symm h))]
  · rw [if_neg ha]
    unfold lookupKey
    rw [List.find?_append]
    have h2 : [(k, x)].find? (fun p => p.1 == k') = none := by
      simp [List.find?_cons, Ne.symm h]
    rw [h2]
    simp

theorem lookupKey_payload_fold_none (ws : List Widget) (excl : List String)
    (acc : List (String × PVal)) (k : String)
    (hacc : lookupKey acc k = none)
    (hws : ∀ w ∈ ws, w.name ≠ k) :
    lookupKey
      (ws.foldl
        (fun acc w =>
          if excl.contains w.name then acc else objSet acc w.name (.v w.value))
        acc) k = none := by
  induction ws generalizing acc with
  | nil => exact hacc
  | cons w rest ih =>
    rw [List.foldl_cons]
    apply ih
    · by_cases hc : excl.contains w.name = true
      · rw [if_pos hc]
        exact hacc
      · rw [if_neg hc, lookupKey_objSet_ne acc w.name k (.v w.value)
            (Ne.symm (hws w (List.mem_cons_self _ _)))]
        exact hacc
    · intro w' hw'
      exact hws w' (List.mem_cons_of_mem _ hw')

/-! Claim theorems about the configuration resolver and the payload. -/

/-- C5: when the llm_config input slot is absent, unconnected, or its link or
origin node cannot be resolved, the resolver returns nothing and the dispatch
payload carries no llm_config key; and when the origin node exposes exactly
provider and model_name among the recognized field names, the resolver returns
exactly that two-field record, in source order, with nothing defaulted. The
side hypothesis says the node has no widget literally named llm_config, which
would otherwise enter the payload as an ordinary widget value. -/
theorem c5_resolve_config (g : Graph) (n : Node)
    (hw : ∀ w ∈ n.widgets.getD [], w.name ≠ "llm_config") :
    (configOrigin g n = none →
      getLLMConfig g n = none ∧ lookupKey (buildPayload g n) "llm_config" = none) ∧
    (∀ src wp wm, configOrigin g n = some src →
      nodeWidgetFind src "provider" = some wp →
      nodeWidgetFind src "model_name" = some wm →
      nodeWidgetFind src "base_url" = none →
      nodeWidgetFind src "temperature" = none →
      nodeWidgetFind src "top_p" = none →
      nodeWidgetFind src "max_new_tokens" = none →
      nodeWidgetFind src "hf_token" = none →
      getLLMConfig g n = some [("provider", wp.value), ("model_name", wm.value)]) := by
  constructor
  · intro hc
    have hg : getLLMConfig g n = none := by
      unfold getLLMConfig
      rw [hc]
      rfl
    refine ⟨hg, ?_⟩
    unfold buildPayload
    rw [hg]
    dsimp only
    rw [lookupKey_objSet_ne _ "action" "llm_config" _ (by decide)]
    exact lookupKey_payload_fold_none _ _ [] _ rfl hw
  · intro src wp wm hc hp hm h1 h2 h3 h4 h5
    unfold getLLMConfig
    rw [hc]
    simp only [Option.map_some']
    unfold extractLLMConfig llmFields
    unfold nodeWidgetFind at hp hm h1 h2 h3 h4 h5
    simp [hp, hm, h1, h2, h3, h4, h5]

/-- Witness for C5 at a node without an llm_config input slot. -/
theorem c5_resolve_config_witness :
    ((∀ w ∈ nC5.widgets.getD [], w.name ≠ "llm_config") ∧ configOrigin gC5 nC5 = none) ∧
    (getLLMConfig gC5 nC5 = none ∧ lookupKey (buildPayload gC5 nC5) "llm_config" = none) :=
  ⟨⟨by decide, by decide⟩, (c5_resolve_config gC5 nC5 (by decide)).1 (by decide)⟩

/-- C10: when the llm_config link resolves but the origin node exposes none of
the recognized configuration widgets, the resolver returns the empty record
rather than nothing, and the dispatch payload therefore carries an llm_config
key bound to the empty object. -/
theorem c10_empty_config (g : Graph) (n : Node) (src : Node)
    (hc : configOrigin g n = some src)
    (h1 : nodeWidgetFind src "provider" = none)
    (h2 : nodeWidgetFind src "base_url" = none)
    (h3 : nodeWidgetFind src "model_name" = none)
    (h4 : nodeWidgetFind src "temperature" = none)
    (h5 : nodeWidgetFind src "top_p" = none)
    (h6 : nodeWidgetFind src "max_new_tokens" = none)
    (h7 : nodeWidgetFind src "hf_token" = none) :
    getLLMConfig g n = some [] ∧
    lookupKey (buildPayload g n) "llm_config" = some (.cfg []) := by
  have hg : getLLMConfig g n = some [] := by
    unfold getLLMConfig
    rw [hc]
    simp only [Option.map_some']
    unfold extractLLMConfig llmFields
    unfold nodeWidgetFind at h1 h2 h3 h4 h5 h6 h7
    simp [h1, h2, h3, h4, h5, h6, h7]
  refine ⟨hg, ?_⟩
  unfold buildPayload
  rw [hg]
  dsimp only
  exact lookupKey_objSet_same _ "llm_config" (.cfg [])

/-- Witness for C10 at an origin node exposing only an unrecognized widget. -/
theorem c10_empty_config_witness :
    (configOrigin gC10 nC10 = some srcC10 ∧ nodeWidgetFind srcC10 "provider" = none) ∧
    (getLLMConfig gC10 nC10 = some [] ∧
     lookupKey (buildPayload gC10 nC10) "llm_config" = some (.cfg [])) :=
  ⟨⟨by decide, by decide⟩,
   c10_empty_config gC10 nC10 srcC10 (by decide) (by decide) (by decide) (by decide)
     (by decide) (by decide) (by decide) (by decide)⟩

/-- C3: the claim says an api_key widget on the resolvable origin node is
copied into the configuration record; the resolver, however, copies provider,
base_url, model_name, temperature, top_p, max_new_tokens and hf_token only and
never reads api_key, although the repository README documents api_key as a
field of the LLM Config node that OpenAI-compatible and Claude providers
require. At a concrete origin exposing provider and api_key, the record and
the payload's llm_config object contain provider only. -/
theorem c3_api_key_not_copied :
    (nodeWidgetFind srcC3 "api_key").map (fun w => w.value) = some (.str "sk-test") ∧
    getLLMConfig gC3 nC3 = some [("provider", .str "openai")] ∧
    lookupKey (buildPayload gC3 nC3) "llm_config"
      = some (.cfg [("provider", .str "openai")]) := by
  refine ⟨?_, ?_, ?_⟩ <;> decide

/-! Claim theorems about the widget-write callback discipline. -/

/-- C4 counterexample: on a concrete dispatch, the status widget and the
assistant-response cache widget both carry change callbacks, both values are
written by the success path, and neither callback is ever invoked, refuting
the claim that every write of this layer invokes the widget's callback. -/
theorem c4_counterexample :
    widgetHasCb gC4 1 "status" = some true ∧
    widgetValue gC4 1 "status" = some (.str "idle") ∧
    widgetValue (sendSuccess gC4 1 respC4) 1 "status" = some (.str "done") ∧
    widgetCalls (sendSuccess gC4 1 respC4) 1 "status" = some 0 ∧
    widgetValue (sendSuccess gC4 1 respC4) 1 "assistant_response_preview"
      = some (.str "hi") ∧
    widgetCalls (sendSuccess gC4 1 respC4) 1 "assistant_response_preview" = some 0 := by
  refine ⟨?_, ?_, ?_, ?_, ?_, ?_⟩ <;> decide

/-- C4 amended: writes performed through setWidgetValue and through output
propagation invoke the written widget's change callback in the same
synchronous step as the write, when a callback is attached; the dispatcher's
direct writes to the status widget and the two cache widgets, however, store
the raw value and leave the callback uninvoked. -/
theorem c4_callback_discipline :
    (∀ n nm v w, nodeWidgetFind n nm = some w →
        nodeWidgetFind (setWidgetValue n nm v) nm
          = some { w with value := jvDefault v, onChangeCalls := bumpCalls w }) ∧
    (∀ g l v tid wn w, resolveConsumer g l = some (tid, wn) →
        widgetFind g tid wn = some w →
        widgetFind (propagateOne g l v) tid wn
          = some { w with value := v, onChangeCalls := bumpCalls w }) ∧
    (∀ n nm v, nodeWidgetFind (nodeRawWrite n nm v) nm
        = (nodeWidgetFind n nm).map (fun w => { w with value := v })) := by
  refine ⟨?_, ?_, ?_⟩
  · intro n nm v w hw
    rw [nodeWidgetFind_setWidgetValue_same, hw]
    rfl
  · intro g l v tid wn w hres hw
    obtain ⟨w', hw1, hw2⟩ := widgetFind_propagateOne_write g l v tid wn hres
    rw [hw1] at hw
    injection hw with he
    subst he
    exact hw2
  · intro n nm v
    exact nodeWidgetFind_rawWrite_same n nm v

/-- Witness for the amended C4 at a concrete widget carrying a callback. -/
theorem c4_callback_discipline_witness :
    nodeWidgetFind nC4w "user_message" = some wC4 ∧
    nodeWidgetFind (setWidgetValue nC4w "user_message" (.str "")) "user_message"
      = some { wC4 with value := jvDefault (.str ""), onChangeCalls := bumpCalls wC4 } :=
  ⟨by decide, (c4_callback_discipline).1 nC4w "user_message" (.str "") wC4 (by decide)⟩

end ChatOptimize
